import Mathlib

/-! The bluetuith pairing agent (`agent/agent.go`).

A shallow embedding of the BlueZ pairing agent of bluetuith and the
properties of its callback surface.

The Go package keeps two package-level variables (`agent`, `alwaysAuthorize`)
and talks to three collaborators: the `ui` package (device lookup, modals,
free-form input, trust marking), and the D-Bus connection (system bus,
object export, method calls on the agent manager).  The embedding passes the
package-level variables explicitly in `State`, together with a chronological
trace of every collaborator call, and takes the collaborators as an `Env` of
functions that may answer differently depending on everything that has
happened so far.
-/

namespace Bluetuith

/-! ## Constants -/

def AgentBluezName : String := "org.bluez"
def AgentIface : String := "org.bluez.Agent1"
def AgentManagerIface : String := "org.bluez.AgentManager1"
def AgentManagerPath : String := "/org/bluez"
def AgentPath : String := "/org/bluez/agent/bluetuith"
def AgentPinCode : String := "0000"
def AgentPassKey : Nat := 1024
def dbusIntrospectable : String := "org.freedesktop.DBus.Introspectable"

/-! ## Data model -/

/-- A Go `error`, represented by the text that `err.Error()` returns. -/
abbrev GoError := String

/-- A `*dbus.Conn` handle. -/
abbrev Conn := Nat

/-- A `*dbus.Error` reply: the D-Bus error name and its body. -/
structure DBusError where
  Name : String
  Body : List String
  deriving DecidableEq, Repr

/-- The godbus helper `dbus.MakeFailedError`: the generic
`org.freedesktop.DBus.Error.Failed` error carrying `err.Error()`. -/
def MakeFailedError (err : GoError) : DBusError :=
  { Name := "org.freedesktop.DBus.Error.Failed", Body := [err] }

/-- The Go call `errors.New`. -/
def errorsNew (text : String) : GoError := text

/-- The part of `bluez.Device` the agent reads. -/
structure Device where
  Name : String
  deriving DecidableEq, Repr

/-- The `Agent` struct of the source. -/
structure Agent where
  conn : Conn
  pinCode : String
  passKey : Nat
  deriving DecidableEq, Repr

/-- An argument of a D-Bus method call. -/
inductive Arg where
  | objectPath (p : String)
  | str (v : String)
  deriving DecidableEq, Repr

/-- What `conn.Export` is asked to export. -/
inductive Exported where
  | agentMethods
  | introspectable
  deriving DecidableEq, Repr

/-- A finished `*dbus.Call`: its error and the reply body. -/
structure Call where
  Err : Option GoError
  Body : List String
  deriving DecidableEq, Repr

/-- The godbus method `(*Call).Store` with no destination: the call error if
there is one, otherwise `dbus.Store(c.Body)`, which rejects a body whose
length differs from the number of destinations. -/
def Call.Store (c : Call) : Option GoError :=
  match c.Err with
  | some e => some e
  | none => if c.Body.length ≠ 0 then some "dbus.Store: length mismatch" else none

/-- One collaborator call.  Prompts also record the human reply. -/
inductive Event where
  | getDeviceFromPath (path : String)
  | newDisplayModal (name title msg : String)
  | newConfirmModal (name title msg reply : String)
  | setTrusted (path : String) (enable : Bool)
  | setInput (msg reply : String)
  | systemBus
  | export (conn : Conn) (obj : Exported) (path iface : String)
  | call (conn : Conn) (dest path method : String) (flags : Nat) (args : List Arg)
  deriving DecidableEq, Repr

/-- The collaborators.  Every function receives the trace of all calls made
before it, so its answer may change from one call to the next. -/
structure Env where
  GetDeviceFromPath : List Event → String → Except GoError Device
  NewConfirmModal : List Event → String → String → String → String
  SetTrusted : List Event → String → Bool → Option GoError
  SetInput : List Event → String → String
  SystemBus : List Event → Except GoError Conn
  Export : List Event → Conn → Exported → String → String → Option GoError
  Call : List Event → Conn → String → String → String → Nat → List Arg → Call

/-- The package-level variables `agent` and `alwaysAuthorize`, and the trace
of collaborator calls in chronological order. -/
structure State where
  agent : Option Agent
  alwaysAuthorize : Bool
  trace : List Event
  deriving DecidableEq, Repr

/-- The state at process start: Go zero values and no call made. -/
def State.init : State :=
  { agent := none, alwaysAuthorize := false, trace := [] }

/-- Record a collaborator call. -/
def State.log (s : State) (e : Event) : State :=
  { s with trace := s.trace ++ [e] }

/-- The `SetTrusted` calls of a trace, in order. -/
def setTrustedCalls (t : List Event) : List (String × Bool) :=
  t.filterMap fun e =>
    match e with
    | .setTrusted p b => some (p, b)
    | _ => none

/-- The prompts of a trace: display modals, confirmation modals and
free-form input requests. -/
def promptCalls (t : List Event) : List Event :=
  t.filter fun e =>
    match e with
    | .newDisplayModal _ _ _ => true
    | .newConfirmModal _ _ _ _ => true
    | .setInput _ _ => true
    | _ => false

/-! ## Agent lifecycle -/

/-- `NewAgent`: connect to the system bus and build the agent with the
default pincode and passkey. -/
def NewAgent (env : Env) (s : State) : (Option Agent × Option GoError) × State :=
  let s1 := s.log .systemBus
  match env.SystemBus s.trace with
  | .error err => ((none, some err), s1)
  | .ok conn => ((some { conn := conn, passKey := AgentPassKey, pinCode := AgentPinCode }, none), s1)

/-- `CallAgentManager`: call `method` of the AgentManager1 interface on the
global agent connection.  `none` is the nil-pointer panic of `agent.conn`
when no agent has been created. -/
def CallAgentManager (env : Env) (method : String) (args : List Arg) (s : State) :
    Option (Call × State) :=
  match s.agent with
  | none => none
  | some a =>
    let name := AgentManagerIface ++ "." ++ method
    some (env.Call s.trace a.conn AgentBluezName AgentManagerPath name 0 args,
      s.log (.call a.conn AgentBluezName AgentManagerPath name 0 args))

/-- `RegisterAgent`: register the agent, then request to be the default. -/
def RegisterAgent (env : Env) (s : State) : Option (Option GoError × State) :=
  match CallAgentManager env "RegisterAgent" [.objectPath AgentPath, .str "KeyboardDisplay"] s with
  | none => none
  | some (c, s1) =>
    match c.Store with
    | some err => some (some err, s1)
    | none =>
      match CallAgentManager env "RequestDefaultAgent" [.objectPath AgentPath] s1 with
      | none => none
      | some (c2, s2) => some (c2.Store, s2)

/-- `UnregisterAgent`. -/
def UnregisterAgent (env : Env) (s : State) : Option (Option GoError × State) :=
  match CallAgentManager env "UnregisterAgent" [.objectPath AgentPath] s with
  | none => none
  | some (c, s1) => some (c.Store, s1)

/-- `RemoveAgent`. -/
def RemoveAgent (env : Env) (s : State) : Option (Option GoError × State) :=
  UnregisterAgent env s

/-- `ExportAgent`: export the agent methods, then the introspection data.
`none` is the nil-pointer panic of `agent.conn`. -/
def ExportAgent (env : Env) (s : State) : Option (Option GoError × State) :=
  match s.agent with
  | none => none
  | some a =>
    let s1 := s.log (.export a.conn .agentMethods AgentPath AgentIface)
    match env.Export s.trace a.conn .agentMethods AgentPath AgentIface with
    | some err => some (some err, s1)
    | none =>
      some (env.Export s1.trace a.conn .introspectable AgentPath dbusIntrospectable,
        s1.log (.export a.conn .introspectable AgentPath dbusIntrospectable))

/-- `SetupAgent`: create the agent, export it and register it.  The `conn`
parameter is not used by the source. -/
def SetupAgent (env : Env) (_conn : Conn) (s : State) : Option (Option GoError × State) :=
  let r := NewAgent env s
  let s1 : State := { r.2 with agent := r.1.1 }
  match r.1.2 with
  | some err => some (some err, s1)
  | none =>
    match ExportAgent env s1 with
    | none => none
    | some (some err, s2) => some (some err, s2)
    | some (none, s2) => RegisterAgent env s2

/-! ## Agent callbacks -/

/-- `RequestPinCode` returns the default pincode. -/
def Agent.RequestPinCode (a : Agent) (_path : String) (s : State) :
    (String × Option DBusError) × State :=
  ((a.pinCode, none), s)

/-- `RequestPasskey` returns the default passkey. -/
def Agent.RequestPasskey (a : Agent) (_path : String) (s : State) :
    (Nat × Option DBusError) × State :=
  ((a.passKey, none), s)

/-- `DisplayPinCode` shows a notification with the pincode. -/
def Agent.DisplayPinCode (_a : Agent) (env : Env) (path : String) (pincode : String)
    (s : State) : Option DBusError × State :=
  let s1 := s.log (.getDeviceFromPath path)
  match env.GetDeviceFromPath s.trace path with
  | .error err => (some (MakeFailedError err), s1)
  | .ok device =>
    let msg := "The pincode for [::bu]" ++ device.Name ++ "[-:-:-] is:\n\n[::b]" ++ pincode
      ++ "[-:-:-]"
    (none, s1.log (.newDisplayModal "pincode" "Pin Code" msg))

/-- `DisplayPasskey` shows a notification with the passkey. -/
def Agent.DisplayPasskey (_a : Agent) (env : Env) (path : String) (passkey : Nat)
    (entered : Nat) (s : State) : Option DBusError × State :=
  let s1 := s.log (.getDeviceFromPath path)
  match env.GetDeviceFromPath s.trace path with
  | .error err => (some (MakeFailedError err), s1)
  | .ok device =>
    let msg := "The passkey for [::bu]" ++ device.Name ++ "[-:-:-] is:\n\n[::b]"
      ++ Nat.repr passkey ++ "[-:-:-]"
    let msg := if entered > 0 then msg ++ ("\n\nYou have entered " ++ Nat.repr entered) else msg
    (none, s1.log (.newDisplayModal "passkey-display" "Passkey Display" msg))

/-- `RequestConfirmation` shows the passkey and asks for confirmation. -/
def Agent.RequestConfirmation (_a : Agent) (env : Env) (path : String) (passkey : Nat)
    (s : State) : Option DBusError × State :=
  let s1 := s.log (.getDeviceFromPath path)
  match env.GetDeviceFromPath s.trace path with
  | .error err => (some (MakeFailedError err), s1)
  | .ok device =>
    let msg := "Confirm passkey for [::bu]" ++ device.Name ++ "[-:-:-] is \n\n[::b]"
      ++ Nat.repr passkey ++ "[-:-:-]"
    let reply := env.NewConfirmModal s1.trace "passkey-confirm" "Passkey Confirmation" msg
    let s2 := s1.log (.newConfirmModal "passkey-confirm" "Passkey Confirmation" msg reply)
    if reply ≠ "y" then (some (MakeFailedError (errorsNew "Cancelled")), s2)
    else
      let s3 := s2.log (.setTrusted path true)
      match env.SetTrusted s2.trace path true with
      | some err => (some (MakeFailedError err), s3)
      | none => (none, s3)

/-- `RequestAuthorization` asks for confirmation before pairing. -/
def Agent.RequestAuthorization (_a : Agent) (env : Env) (path : String)
    (s : State) : Option DBusError × State :=
  let s1 := s.log (.getDeviceFromPath path)
  match env.GetDeviceFromPath s.trace path with
  | .error err => (some (MakeFailedError err), s1)
  | .ok device =>
    let msg := "Confirm pairing with [::bu]" ++ device.Name ++ "[-:-:-]"
    let reply := env.NewConfirmModal s1.trace "pairing-confirm" "Pairing Confirmation" msg
    let s2 := s1.log (.newConfirmModal "pairing-confirm" "Pairing Confirmation" msg reply)
    if reply ≠ "y" then (some (MakeFailedError (errorsNew "Cancelled")), s2)
    else
      let s3 := s2.log (.setTrusted path true)
      match env.SetTrusted s2.trace path true with
      | some err => (some (MakeFailedError err), s3)
      | none => (none, s3)

/-- `AuthorizeService` asks for confirmation before authorizing a service
UUID.  If `alwaysAuthorize` is set, all services are automatically
authorized.  The `switch` of the source has `case "a"` set the flag and fall
through to `case "y"`, which returns nil. -/
def Agent.AuthorizeService (_a : Agent) (env : Env) (_device : String) (uuid : String)
    (s : State) : Option DBusError × State :=
  if s.alwaysAuthorize then (none, s)
  else
    let msg := "Authorize service " ++ uuid ++ " (y/n/a)"
    let reply := env.SetInput s.trace msg
    let s1 := s.log (.setInput msg reply)
    if reply = "a" then (none, { s1 with alwaysAuthorize := true })
    else if reply = "y" then (none, s1)
    else (some (MakeFailedError (errorsNew "Cancelled")), s1)

/-- `Cancel` is called when the agent request was cancelled. -/
def Agent.Cancel (_a : Agent) (s : State) : Option DBusError × State :=
  (none, s)

/-- `Release` is called when the agent is unregistered. -/
def Agent.Release (_a : Agent) (s : State) : Option DBusError × State :=
  (none, s)

/-! ## Sequences of callbacks -/

/-- One incoming call of the exported `org.bluez.Agent1` interface. -/
inductive Op where
  | requestPinCode (path : String)
  | requestPasskey (path : String)
  | displayPinCode (path pincode : String)
  | displayPasskey (path : String) (passkey entered : Nat)
  | requestConfirmation (path : String) (passkey : Nat)
  | requestAuthorization (path : String)
  | authorizeService (device uuid : String)
  | cancel
  | release
  deriving DecidableEq, Repr

/-- The state after the agent has served one incoming call. -/
def Agent.serve (a : Agent) (env : Env) (op : Op) (s : State) : State :=
  match op with
  | .requestPinCode p => (a.RequestPinCode p s).2
  | .requestPasskey p => (a.RequestPasskey p s).2
  | .displayPinCode p c => (a.DisplayPinCode env p c s).2
  | .displayPasskey p k n => (a.DisplayPasskey env p k n s).2
  | .requestConfirmation p k => (a.RequestConfirmation env p k s).2
  | .requestAuthorization p => (a.RequestAuthorization env p s).2
  | .authorizeService d u => (a.AuthorizeService env d u s).2
  | .cancel => (a.Cancel s).2
  | .release => (a.Release s).2

/-- The state after the agent has served a sequence of incoming calls. -/
def Agent.serveAll (a : Agent) (env : Env) (ops : List Op) (s : State) : State :=
  ops.foldl (fun st op => a.serve env op st) s

/-! ## Example collaborators -/

/-- The number of free-form input requests in a trace. -/
def inputCount (t : List Event) : Nat :=
  (t.filter fun e => match e with | .setInput _ _ => true | _ => false).length

/-- A scripted set of collaborators: `lookup` resolves devices, every
confirmation modal is answered `confirm`, `SetTrusted` answers `trusted`, the
n-th free-form input request is answered by the n-th entry of `inputs` (the
empty string once the script is exhausted), and the bus accepts everything
except that agent-manager calls answer `reply`. -/
def scriptedEnv (lookup : String → Except GoError Device) (confirm : String)
    (trusted : Option GoError) (inputs : List String) (reply : String → Call) : Env where
  GetDeviceFromPath := fun _ p => lookup p
  NewConfirmModal := fun _ _ _ _ => confirm
  SetTrusted := fun _ _ _ => trusted
  SetInput := fun t _ => inputs.getD (inputCount t) ""
  SystemBus := fun _ => .ok 7
  Export := fun _ _ _ _ _ => none
  Call := fun _ _ _ _ m _ _ => reply m

/-- A device directory that knows `/dev/A` only. -/
def lookupA (p : String) : Except GoError Device :=
  if p = "/dev/A" then .ok { Name := "Headset" } else .error "device not found"

/-- The agent that `NewAgent` builds on connection 7. -/
def agent7 : Agent := { conn := 7, pinCode := AgentPinCode, passKey := AgentPassKey }

/-- An agent manager that accepts every call with an empty reply. -/
def acceptAll (_m : String) : Call := { Err := none, Body := [] }

/-- An agent manager that rejects `RegisterAgent` and accepts the rest. -/
def rejectRegister (m : String) : Call :=
  if m = "org.bluez.AgentManager1.RegisterAgent" then
    { Err := some "org.bluez.Error.AlreadyExists", Body := [] }
  else { Err := none, Body := [] }

/-- A state in which `agent7` has been created and nothing else happened. -/
def readyState : State :=
  { agent := some agent7, alwaysAuthorize := false, trace := [] }

/-! ## Frame lemmas -/

theorem State.log_alwaysAuthorize (s : State) (e : Event) :
    (s.log e).alwaysAuthorize = s.alwaysAuthorize := rfl

theorem State.log_agent (s : State) (e : Event) : (s.log e).agent = s.agent := rfl

theorem State.log_trace (s : State) (e : Event) : (s.log e).trace = s.trace ++ [e] := rfl

theorem DisplayPinCode_flag (a : Agent) (env : Env) (path pincode : String) (s : State) :
    (a.DisplayPinCode env path pincode s).2.alwaysAuthorize = s.alwaysAuthorize := by
  unfold Agent.DisplayPinCode
  cases env.GetDeviceFromPath s.trace path <;> rfl

theorem DisplayPasskey_flag (a : Agent) (env : Env) (path : String) (passkey entered : Nat)
    (s : State) :
    (a.DisplayPasskey env path passkey entered s).2.alwaysAuthorize = s.alwaysAuthorize := by
  unfold Agent.DisplayPasskey
  cases env.GetDeviceFromPath s.trace path <;> rfl

theorem RequestConfirmation_flag (a : Agent) (env : Env) (path : String) (passkey : Nat)
    (s : State) :
    (a.RequestConfirmation env path passkey s).2.alwaysAuthorize = s.alwaysAuthorize := by
  unfold Agent.RequestConfirmation
  cases env.GetDeviceFromPath s.trace path with
  | error err => rfl
  | ok device =>
    simp only []
    split
    · rfl
    · split <;> rfl

theorem RequestAuthorization_flag (a : Agent) (env : Env) (path : String) (s : State) :
    (a.RequestAuthorization env path s).2.alwaysAuthorize = s.alwaysAuthorize := by
  unfold Agent.RequestAuthorization
  cases env.GetDeviceFromPath s.trace path with
  | error err => rfl
  | ok device =>
    simp only []
    split
    · rfl
    · split <;> rfl

theorem AuthorizeService_flag_of_true (a : Agent) (env : Env) (device uuid : String)
    (s : State) (h : s.alwaysAuthorize = true) :
    a.AuthorizeService env device uuid s = (none, s) := by
  unfold Agent.AuthorizeService
  simp [h]

theorem serve_flag_of_true (a : Agent) (env : Env) (op : Op) (s : State)
    (h : s.alwaysAuthorize = true) : (a.serve env op s).alwaysAuthorize = true := by
  cases op with
  | requestPinCode p => exact h
  | requestPasskey p => exact h
  | displayPinCode p c => exact (DisplayPinCode_flag a env p c s).trans h
  | displayPasskey p k n => exact (DisplayPasskey_flag a env p k n s).trans h
  | requestConfirmation p k => exact (RequestConfirmation_flag a env p k s).trans h
  | requestAuthorization p => exact (RequestAuthorization_flag a env p s).trans h
  | authorizeService d u =>
    show (a.AuthorizeService env d u s).2.alwaysAuthorize = true
    rw [AuthorizeService_flag_of_true a env d u s h]
    exact h
  | cancel => exact h
  | release => exact h

theorem serveAll_flag_of_true (a : Agent) (env : Env) (ops : List Op) :
    ∀ s : State, s.alwaysAuthorize = true → (a.serveAll env ops s).alwaysAuthorize = true := by
  induction ops with
  | nil => intro s h; exact h
  | cons op rest ih =>
    intro s h
    exact ih (a.serve env op s) (serve_flag_of_true a env op s h)

theorem AuthorizeService_trace_of_false (a : Agent) (env : Env) (device uuid : String)
    (s : State) (h : s.alwaysAuthorize = false) :
    (a.AuthorizeService env device uuid s).2.trace
      = s.trace ++ [Event.setInput ("Authorize service " ++ uuid ++ " (y/n/a)")
          (env.SetInput s.trace ("Authorize service " ++ uuid ++ " (y/n/a)"))] := by
  unfold Agent.AuthorizeService
  simp only [h]
  by_cases hr : env.SetInput s.trace ("Authorize service " ++ uuid ++ " (y/n/a)") = "a"
  · simp [hr, State.log]
  · by_cases hy : env.SetInput s.trace ("Authorize service " ++ uuid ++ " (y/n/a)") = "y"
    · simp [hy, State.log]
    · simp [hr, hy, State.log]

theorem serve_flag_changed (a : Agent) (env : Env) (op : Op) (s : State)
    (h : (a.serve env op s).alwaysAuthorize ≠ s.alwaysAuthorize) :
    ∃ d u, op = Op.authorizeService d u ∧ s.alwaysAuthorize = false
      ∧ env.SetInput s.trace ("Authorize service " ++ u ++ " (y/n/a)") = "a" := by
  cases op with
  | requestPinCode p => exact absurd rfl h
  | requestPasskey p => exact absurd rfl h
  | displayPinCode p c => exact absurd (DisplayPinCode_flag a env p c s) h
  | displayPasskey p k n => exact absurd (DisplayPasskey_flag a env p k n s) h
  | requestConfirmation p k => exact absurd (RequestConfirmation_flag a env p k s) h
  | requestAuthorization p => exact absurd (RequestAuthorization_flag a env p s) h
  | authorizeService d u =>
    refine ⟨d, u, rfl, ?_⟩
    by_cases hs : s.alwaysAuthorize = true
    · exfalso
      apply h
      show (a.AuthorizeService env d u s).2.alwaysAuthorize = s.alwaysAuthorize
      rw [AuthorizeService_flag_of_true a env d u s hs]
    · have hs2 : s.alwaysAuthorize = false := by simpa using hs
      refine ⟨hs2, ?_⟩
      by_contra hr
      apply h
      show (a.AuthorizeService env d u s).2.alwaysAuthorize = s.alwaysAuthorize
      unfold Agent.AuthorizeService
      by_cases hy : env.SetInput s.trace ("Authorize service " ++ u ++ " (y/n/a)") = "y"
      · simp [hs2, hy, State.log]
      · simp [hs2, hr, hy, State.log]
  | cancel => exact absurd rfl h
  | release => exact absurd rfl h

theorem setTrustedCalls_append (t u : List Event) :
    setTrustedCalls (t ++ u) = setTrustedCalls t ++ setTrustedCalls u := by
  simp [setTrustedCalls, List.filterMap_append]

theorem promptCalls_append (t u : List Event) :
    promptCalls (t ++ u) = promptCalls t ++ promptCalls u := by
  simp [promptCalls, List.filter_append]

theorem no_progress_clause_after_bracket (x pre : String) :
    x ++ "[-:-:-]" ≠ pre ++ "\n\nYou have entered " ++ "0" := by
  intro h
  have h2 := congrArg (fun t : String => t.data.reverse.head?) h
  simp [String.data_append] at h2

/-! ## Lifecycle lemmas -/

theorem RegisterAgent_rejected (env : Env) (s : State) (a : Agent) (err : GoError)
    (h : s.agent = some a)
    (herr : (env.Call s.trace a.conn AgentBluezName AgentManagerPath
      (AgentManagerIface ++ "." ++ "RegisterAgent") 0
      [Arg.objectPath AgentPath, Arg.str "KeyboardDisplay"]).Store = some err) :
    RegisterAgent env s
      = some (some err, s.log (Event.call a.conn AgentBluezName AgentManagerPath
          (AgentManagerIface ++ "." ++ "RegisterAgent") 0
          [Arg.objectPath AgentPath, Arg.str "KeyboardDisplay"])) := by
  unfold RegisterAgent CallAgentManager
  simp only [h, herr]

theorem RegisterAgent_accepted (env : Env) (s : State) (a : Agent)
    (h : s.agent = some a)
    (hok : (env.Call s.trace a.conn AgentBluezName AgentManagerPath
      (AgentManagerIface ++ "." ++ "RegisterAgent") 0
      [Arg.objectPath AgentPath, Arg.str "KeyboardDisplay"]).Store = none) :
    RegisterAgent env s
      = some ((env.Call (s.log (Event.call a.conn AgentBluezName AgentManagerPath
            (AgentManagerIface ++ "." ++ "RegisterAgent") 0
            [Arg.objectPath AgentPath, Arg.str "KeyboardDisplay"])).trace a.conn AgentBluezName
            AgentManagerPath (AgentManagerIface ++ "." ++ "RequestDefaultAgent") 0
            [Arg.objectPath AgentPath]).Store,
          (s.log (Event.call a.conn AgentBluezName AgentManagerPath
            (AgentManagerIface ++ "." ++ "RegisterAgent") 0
            [Arg.objectPath AgentPath, Arg.str "KeyboardDisplay"])).log
            (Event.call a.conn AgentBluezName AgentManagerPath
              (AgentManagerIface ++ "." ++ "RequestDefaultAgent") 0
              [Arg.objectPath AgentPath])) := by
  unfold RegisterAgent CallAgentManager
  simp only [h, hok, State.log_agent]

theorem SetupAgent_bus_error (env : Env) (conn : Conn) (t : State) (err : GoError)
    (hbus : env.SystemBus t.trace = .error err) :
    SetupAgent env conn t = some (some err, { t.log Event.systemBus with agent := none }) := by
  unfold SetupAgent NewAgent
  simp only [hbus]

theorem SetupAgent_export_error (env : Env) (conn : Conn) (t : State) (c : Conn)
    (err : GoError) (hbus : env.SystemBus t.trace = .ok c)
    (hexp : env.Export (t.log Event.systemBus).trace c Exported.agentMethods AgentPath
      AgentIface = some err) :
    SetupAgent env conn t
      = some (some err,
        State.log { t.log Event.systemBus with
            agent := some { conn := c, passKey := AgentPassKey, pinCode := AgentPinCode } }
          (Event.export c Exported.agentMethods AgentPath AgentIface)) := by
  unfold SetupAgent NewAgent ExportAgent
  simp only [hbus, hexp]

theorem SetupAgent_introspect_error (env : Env) (conn : Conn) (t : State) (c : Conn)
    (err : GoError) (hbus : env.SystemBus t.trace = .ok c)
    (hexp : env.Export (t.log Event.systemBus).trace c Exported.agentMethods AgentPath
      AgentIface = none)
    (hint : env.Export ((t.log Event.systemBus).log
        (Event.export c Exported.agentMethods AgentPath AgentIface)).trace c
      Exported.introspectable AgentPath dbusIntrospectable = some err) :
    SetupAgent env conn t
      = some (some err,
        State.log (State.log { t.log Event.systemBus with
            agent := some { conn := c, passKey := AgentPassKey, pinCode := AgentPinCode } }
          (Event.export c Exported.agentMethods AgentPath AgentIface))
          (Event.export c Exported.introspectable AgentPath dbusIntrospectable)) := by
  unfold SetupAgent NewAgent ExportAgent
  simp only [hbus, hexp]
  have hint2 : env.Export (State.log { t.log Event.systemBus with
        agent := some { conn := c, passKey := AgentPassKey, pinCode := AgentPinCode } }
      (Event.export c Exported.agentMethods AgentPath AgentIface)).trace c
      Exported.introspectable AgentPath dbusIntrospectable = some err := hint
  simp only [hint2]

theorem SetupAgent_exported (env : Env) (conn : Conn) (t : State) (c : Conn)
    (hbus : env.SystemBus t.trace = .ok c)
    (hexp : env.Export (t.log Event.systemBus).trace c Exported.agentMethods AgentPath
      AgentIface = none)
    (hint : env.Export ((t.log Event.systemBus).log
        (Event.export c Exported.agentMethods AgentPath AgentIface)).trace c
      Exported.introspectable AgentPath dbusIntrospectable = none) :
    SetupAgent env conn t
      = RegisterAgent env
        (State.log (State.log { t.log Event.systemBus with
            agent := some { conn := c, passKey := AgentPassKey, pinCode := AgentPinCode } }
          (Event.export c Exported.agentMethods AgentPath AgentIface))
          (Event.export c Exported.introspectable AgentPath dbusIntrospectable)) := by
  unfold SetupAgent NewAgent ExportAgent
  simp only [hbus, hexp]
  have hint2 : env.Export (State.log { t.log Event.systemBus with
        agent := some { conn := c, passKey := AgentPassKey, pinCode := AgentPinCode } }
      (Event.export c Exported.agentMethods AgentPath AgentIface)).trace c
      Exported.introspectable AgentPath dbusIntrospectable = none := hint
  simp only [hint2]

/-! ## Service authorization -/

/-- C1. Sticky authorization: take any state, any sequence `pre` of agent
calls, then an `AuthorizeService` call that prompted and received the reply
"a", then any sequence `post` of agent calls (any arguments, lookup results
and human replies).  In the state reached, `alwaysAuthorize` is true, and an
`AuthorizeService` call for any device and service id returns success and
leaves the state, hence the trace of prompts, exactly as it was. -/
theorem sticky_authorization (a : Agent) (env : Env) (s0 : State) (pre post : List Op)
    (device uuid device2 uuid2 : String)
    (hreply : ∃ msg, (a.AuthorizeService env device uuid (a.serveAll env pre s0)).2.trace
      = (a.serveAll env pre s0).trace ++ [Event.setInput msg "a"]) :
    (a.serveAll env post
        (a.AuthorizeService env device uuid (a.serveAll env pre s0)).2).alwaysAuthorize = true
    ∧ a.AuthorizeService env device2 uuid2
        (a.serveAll env post (a.AuthorizeService env device uuid (a.serveAll env pre s0)).2)
      = (none,
        a.serveAll env post (a.AuthorizeService env device uuid (a.serveAll env pre s0)).2) := by
  obtain ⟨msg, hmsg⟩ := hreply
  have hflag : (a.AuthorizeService env device uuid (a.serveAll env pre s0)).2.alwaysAuthorize
      = true := by
    generalize a.serveAll env pre s0 = s at hmsg ⊢
    unfold Agent.AuthorizeService at hmsg ⊢
    by_cases hs : s.alwaysAuthorize = true
    · simp [hs] at hmsg
    · simp only [hs] at hmsg ⊢
      by_cases hr : env.SetInput s.trace ("Authorize service " ++ uuid ++ " (y/n/a)") = "a"
      · simp [hr]
      · exfalso
        by_cases hy : env.SetInput s.trace ("Authorize service " ++ uuid ++ " (y/n/a)") = "y"
        · simp [hr, hy, State.log] at hmsg
        · simp [hr, hy, State.log] at hmsg
  have hpost := serveAll_flag_of_true a env post _ hflag
  exact ⟨hpost, AuthorizeService_flag_of_true a env device2 uuid2 _ hpost⟩

/-- The scenario of C1: the first call is answered "n", the second "a", and
the third call accepts although the script has no further reply. -/
theorem sticky_authorization_witness :
    (∃ msg, (agent7.AuthorizeService (scriptedEnv lookupA "n" none ["n", "a"] acceptAll)
        "/dev/A" "110b"
        (agent7.serveAll (scriptedEnv lookupA "n" none ["n", "a"] acceptAll)
          [Op.authorizeService "/dev/A" "110a"] State.init)).2.trace
      = (agent7.serveAll (scriptedEnv lookupA "n" none ["n", "a"] acceptAll)
          [Op.authorizeService "/dev/A" "110a"] State.init).trace ++ [Event.setInput msg "a"])
    ∧ (agent7.serveAll (scriptedEnv lookupA "n" none ["n", "a"] acceptAll) []
        (agent7.AuthorizeService (scriptedEnv lookupA "n" none ["n", "a"] acceptAll)
          "/dev/A" "110b"
          (agent7.serveAll (scriptedEnv lookupA "n" none ["n", "a"] acceptAll)
            [Op.authorizeService "/dev/A" "110a"] State.init)).2).alwaysAuthorize = true
    ∧ agent7.AuthorizeService (scriptedEnv lookupA "n" none ["n", "a"] acceptAll)
        "/dev/B" "110e"
        (agent7.serveAll (scriptedEnv lookupA "n" none ["n", "a"] acceptAll) []
          (agent7.AuthorizeService (scriptedEnv lookupA "n" none ["n", "a"] acceptAll)
            "/dev/A" "110b"
            (agent7.serveAll (scriptedEnv lookupA "n" none ["n", "a"] acceptAll)
              [Op.authorizeService "/dev/A" "110a"] State.init)).2)
      = (none,
        agent7.serveAll (scriptedEnv lookupA "n" none ["n", "a"] acceptAll) []
          (agent7.AuthorizeService (scriptedEnv lookupA "n" none ["n", "a"] acceptAll)
            "/dev/A" "110b"
            (agent7.serveAll (scriptedEnv lookupA "n" none ["n", "a"] acceptAll)
              [Op.authorizeService "/dev/A" "110a"] State.init)).2) :=
  have h : ∃ msg, (agent7.AuthorizeService (scriptedEnv lookupA "n" none ["n", "a"] acceptAll)
        "/dev/A" "110b"
        (agent7.serveAll (scriptedEnv lookupA "n" none ["n", "a"] acceptAll)
          [Op.authorizeService "/dev/A" "110a"] State.init)).2.trace
      = (agent7.serveAll (scriptedEnv lookupA "n" none ["n", "a"] acceptAll)
          [Op.authorizeService "/dev/A" "110a"] State.init).trace ++ [Event.setInput msg "a"] :=
    ⟨"Authorize service 110b (y/n/a)", by decide⟩
  ⟨h, sticky_authorization agent7 (scriptedEnv lookupA "n" none ["n", "a"] acceptAll)
    State.init [Op.authorizeService "/dev/A" "110a"] [] "/dev/A" "110b" "/dev/B" "110e" h⟩

/-- C2. Decision table of `AuthorizeService` when `alwaysAuthorize` is false,
for every device and service id: the call prompts exactly once (the trace
grows by the single `SetInput` call) and touches nothing else; the reply "y"
returns success and leaves the flag false; the reply "a" returns success and
sets the flag true; every other reply returns the D-Bus Failed error with
message "Cancelled" and leaves the flag false; whenever the flag is still
false, the next `AuthorizeService` call prompts again; and in every state an
agent call changes the flag only if it is an `AuthorizeService` call made
with the flag false and answered "a". -/
theorem authorize_service_decision_table (a : Agent) (env : Env) (device uuid : String)
    (s : State) (h : s.alwaysAuthorize = false) :
    (a.AuthorizeService env device uuid s).2.trace
      = s.trace ++ [Event.setInput ("Authorize service " ++ uuid ++ " (y/n/a)")
          (env.SetInput s.trace ("Authorize service " ++ uuid ++ " (y/n/a)"))]
    ∧ (a.AuthorizeService env device uuid s).2.agent = s.agent
    ∧ (env.SetInput s.trace ("Authorize service " ++ uuid ++ " (y/n/a)") = "y" →
        (a.AuthorizeService env device uuid s).1 = none
        ∧ (a.AuthorizeService env device uuid s).2.alwaysAuthorize = false)
    ∧ (env.SetInput s.trace ("Authorize service " ++ uuid ++ " (y/n/a)") = "a" →
        (a.AuthorizeService env device uuid s).1 = none
        ∧ (a.AuthorizeService env device uuid s).2.alwaysAuthorize = true)
    ∧ (env.SetInput s.trace ("Authorize service " ++ uuid ++ " (y/n/a)") ≠ "y" →
        env.SetInput s.trace ("Authorize service " ++ uuid ++ " (y/n/a)") ≠ "a" →
        (a.AuthorizeService env device uuid s).1
          = some { Name := "org.freedesktop.DBus.Error.Failed", Body := ["Cancelled"] }
        ∧ (a.AuthorizeService env device uuid s).2.alwaysAuthorize = false)
    ∧ (∀ device2 uuid2 : String,
        (a.AuthorizeService env device uuid s).2.alwaysAuthorize = false →
        (a.AuthorizeService env device2 uuid2 (a.AuthorizeService env device uuid s).2).2.trace
          = (a.AuthorizeService env device uuid s).2.trace
            ++ [Event.setInput ("Authorize service " ++ uuid2 ++ " (y/n/a)")
              (env.SetInput (a.AuthorizeService env device uuid s).2.trace
                ("Authorize service " ++ uuid2 ++ " (y/n/a)"))])
    ∧ (∀ (op : Op) (t : State), (a.serve env op t).alwaysAuthorize ≠ t.alwaysAuthorize →
        ∃ d u, op = Op.authorizeService d u ∧ t.alwaysAuthorize = false
          ∧ env.SetInput t.trace ("Authorize service " ++ u ++ " (y/n/a)") = "a") := by
  refine ⟨AuthorizeService_trace_of_false a env device uuid s h, ?_, ?_, ?_, ?_, ?_, ?_⟩
  · unfold Agent.AuthorizeService
    simp only [h]
    by_cases hr : env.SetInput s.trace ("Authorize service " ++ uuid ++ " (y/n/a)") = "a"
    · simp [hr, State.log]
    · by_cases hy : env.SetInput s.trace ("Authorize service " ++ uuid ++ " (y/n/a)") = "y"
      · simp [hy, State.log]
      · simp [hr, hy, State.log]
  · intro hy
    unfold Agent.AuthorizeService
    simp [h, hy, State.log]
  · intro hr
    unfold Agent.AuthorizeService
    simp [h, hr]
  · intro hy hr
    unfold Agent.AuthorizeService
    simp [h, hr, hy, State.log, MakeFailedError, errorsNew]
  · intro device2 uuid2 h2
    exact AuthorizeService_trace_of_false a env device2 uuid2 _ h2
  · intro op t ht
    exact serve_flag_changed a env op t ht

/-- The reject row of C2 on a concrete run: from the initial state the reply
"n" is a single prompt, a Failed reply, and the flag stays false. -/
theorem authorize_service_decision_table_witness :
    State.init.alwaysAuthorize = false
    ∧ (agent7.AuthorizeService (scriptedEnv lookupA "n" none ["n", "a"] acceptAll)
        "/dev/A" "110a" State.init).1
      = some { Name := "org.freedesktop.DBus.Error.Failed", Body := ["Cancelled"] }
    ∧ (agent7.AuthorizeService (scriptedEnv lookupA "n" none ["n", "a"] acceptAll)
        "/dev/A" "110a" State.init).2.alwaysAuthorize = false :=
  ⟨rfl, (authorize_service_decision_table agent7
    (scriptedEnv lookupA "n" none ["n", "a"] acceptAll) "/dev/A" "110a" State.init
    rfl).2.2.2.2.1 (by decide) (by decide)⟩

/-! ## Confirmation and pairing authorization -/

/-- C3. For `RequestConfirmation` and `RequestAuthorization`, for every
device handle (and passkey) whose name resolves: when the human reply is "y"
the call makes exactly one `SetTrusted` call, with that handle and `true`,
after the lookup and the confirmation modal; when the reply is anything else
the call makes the lookup and the modal only, and no `SetTrusted` call. -/
theorem set_trusted_iff_accepted (a : Agent) (env : Env) (path : String) (passkey : Nat)
    (s : State) (dev : Device) (replyC replyA : String)
    (hdev : env.GetDeviceFromPath s.trace path = .ok dev)
    (hC : env.NewConfirmModal (s.trace ++ [Event.getDeviceFromPath path]) "passkey-confirm"
        "Passkey Confirmation"
        ("Confirm passkey for [::bu]" ++ dev.Name ++ "[-:-:-] is \n\n[::b]" ++ Nat.repr passkey
          ++ "[-:-:-]") = replyC)
    (hA : env.NewConfirmModal (s.trace ++ [Event.getDeviceFromPath path]) "pairing-confirm"
        "Pairing Confirmation"
        ("Confirm pairing with [::bu]" ++ dev.Name ++ "[-:-:-]") = replyA) :
    (replyC = "y" →
        (a.RequestConfirmation env path passkey s).2.trace
          = s.trace ++ [Event.getDeviceFromPath path,
              Event.newConfirmModal "passkey-confirm" "Passkey Confirmation"
                ("Confirm passkey for [::bu]" ++ dev.Name ++ "[-:-:-] is \n\n[::b]"
                  ++ Nat.repr passkey ++ "[-:-:-]") "y",
              Event.setTrusted path true]
        ∧ setTrustedCalls (a.RequestConfirmation env path passkey s).2.trace
          = setTrustedCalls s.trace ++ [(path, true)])
    ∧ (replyC ≠ "y" →
        (a.RequestConfirmation env path passkey s).2.trace
          = s.trace ++ [Event.getDeviceFromPath path,
              Event.newConfirmModal "passkey-confirm" "Passkey Confirmation"
                ("Confirm passkey for [::bu]" ++ dev.Name ++ "[-:-:-] is \n\n[::b]"
                  ++ Nat.repr passkey ++ "[-:-:-]") replyC]
        ∧ setTrustedCalls (a.RequestConfirmation env path passkey s).2.trace
          = setTrustedCalls s.trace)
    ∧ (replyA = "y" →
        (a.RequestAuthorization env path s).2.trace
          = s.trace ++ [Event.getDeviceFromPath path,
              Event.newConfirmModal "pairing-confirm" "Pairing Confirmation"
                ("Confirm pairing with [::bu]" ++ dev.Name ++ "[-:-:-]") "y",
              Event.setTrusted path true]
        ∧ setTrustedCalls (a.RequestAuthorization env path s).2.trace
          = setTrustedCalls s.trace ++ [(path, true)])
    ∧ (replyA ≠ "y" →
        (a.RequestAuthorization env path s).2.trace
          = s.trace ++ [Event.getDeviceFromPath path,
              Event.newConfirmModal "pairing-confirm" "Pairing Confirmation"
                ("Confirm pairing with [::bu]" ++ dev.Name ++ "[-:-:-]") replyA]
        ∧ setTrustedCalls (a.RequestAuthorization env path s).2.trace
          = setTrustedCalls s.trace) := by
  have hC2 := hC
  have hA2 := hA
  rw [← State.log_trace] at hC2 hA2
  refine ⟨?_, ?_, ?_, ?_⟩
  · intro hy
    subst hy
    have ht : (a.RequestConfirmation env path passkey s).2.trace
        = s.trace ++ [Event.getDeviceFromPath path,
            Event.newConfirmModal "passkey-confirm" "Passkey Confirmation"
              ("Confirm passkey for [::bu]" ++ dev.Name ++ "[-:-:-] is \n\n[::b]"
                ++ Nat.repr passkey ++ "[-:-:-]") "y",
            Event.setTrusted path true] := by
      unfold Agent.RequestConfirmation
      simp only [hdev, hC2]
      simp only [ne_eq, not_true_eq_false, if_false]
      split <;> simp [State.log]
    refine ⟨ht, ?_⟩
    rw [ht, setTrustedCalls_append]
    simp [setTrustedCalls]
  · intro hn
    have ht : (a.RequestConfirmation env path passkey s).2.trace
        = s.trace ++ [Event.getDeviceFromPath path,
            Event.newConfirmModal "passkey-confirm" "Passkey Confirmation"
              ("Confirm passkey for [::bu]" ++ dev.Name ++ "[-:-:-] is \n\n[::b]"
                ++ Nat.repr passkey ++ "[-:-:-]") replyC] := by
      unfold Agent.RequestConfirmation
      simp only [hdev, hC2]
      simp [hn, State.log]
    refine ⟨ht, ?_⟩
    rw [ht, setTrustedCalls_append]
    simp [setTrustedCalls]
  · intro hy
    subst hy
    have ht : (a.RequestAuthorization env path s).2.trace
        = s.trace ++ [Event.getDeviceFromPath path,
            Event.newConfirmModal "pairing-confirm" "Pairing Confirmation"
              ("Confirm pairing with [::bu]" ++ dev.Name ++ "[-:-:-]") "y",
            Event.setTrusted path true] := by
      unfold Agent.RequestAuthorization
      simp only [hdev, hA2]
      simp only [ne_eq, not_true_eq_false, if_false]
      split <;> simp [State.log]
    refine ⟨ht, ?_⟩
    rw [ht, setTrustedCalls_append]
    simp [setTrustedCalls]
  · intro hn
    have ht : (a.RequestAuthorization env path s).2.trace
        = s.trace ++ [Event.getDeviceFromPath path,
            Event.newConfirmModal "pairing-confirm" "Pairing Confirmation"
              ("Confirm pairing with [::bu]" ++ dev.Name ++ "[-:-:-]") replyA] := by
      unfold Agent.RequestAuthorization
      simp only [hdev, hA2]
      simp [hn, State.log]
    refine ⟨ht, ?_⟩
    rw [ht, setTrustedCalls_append]
    simp [setTrustedCalls]

/-- The accept path of C3 on `/dev/A` with passkey 123456: the device
resolves, both modals are answered "y", and the only `SetTrusted` call of
the run is `SetTrusted("/dev/A", true)`. -/
theorem set_trusted_iff_accepted_witness :
    (scriptedEnv lookupA "y" none [] acceptAll).GetDeviceFromPath State.init.trace "/dev/A"
      = .ok { Name := "Headset" }
    ∧ setTrustedCalls (agent7.RequestConfirmation (scriptedEnv lookupA "y" none [] acceptAll)
        "/dev/A" 123456 State.init).2.trace = [("/dev/A", true)]
    ∧ setTrustedCalls (agent7.RequestAuthorization (scriptedEnv lookupA "y" none [] acceptAll)
        "/dev/A" State.init).2.trace = [("/dev/A", true)] :=
  ⟨rfl,
    ((set_trusted_iff_accepted agent7 (scriptedEnv lookupA "y" none [] acceptAll) "/dev/A"
      123456 State.init { Name := "Headset" } "y" "y" rfl rfl rfl).1 rfl).2,
    ((set_trusted_iff_accepted agent7 (scriptedEnv lookupA "y" none [] acceptAll) "/dev/A"
      123456 State.init { Name := "Headset" } "y" "y" rfl rfl rfl).2.2.1 rfl).2⟩

/-- C4 as stated fails: on `/dev/A` with passkey 123456 the device resolves
and the human answers "y", yet `RequestConfirmation` and
`RequestAuthorization` both return a Failed reply, because `SetTrusted`
reported an error. -/
theorem accept_can_still_fail :
    (scriptedEnv lookupA "y" (some "org.bluez.Error.Failed") [] acceptAll).GetDeviceFromPath
        State.init.trace "/dev/A" = .ok { Name := "Headset" }
    ∧ (scriptedEnv lookupA "y" (some "org.bluez.Error.Failed") [] acceptAll).NewConfirmModal
        (State.init.trace ++ [Event.getDeviceFromPath "/dev/A"]) "passkey-confirm"
        "Passkey Confirmation"
        "Confirm passkey for [::bu]Headset[-:-:-] is \n\n[::b]123456[-:-:-]" = "y"
    ∧ (agent7.RequestConfirmation
        (scriptedEnv lookupA "y" (some "org.bluez.Error.Failed") [] acceptAll)
        "/dev/A" 123456 State.init).1
      = some { Name := "org.freedesktop.DBus.Error.Failed", Body := ["org.bluez.Error.Failed"] }
    ∧ (agent7.RequestAuthorization
        (scriptedEnv lookupA "y" (some "org.bluez.Error.Failed") [] acceptAll)
        "/dev/A" State.init).1
      = some { Name := "org.freedesktop.DBus.Error.Failed", Body := ["org.bluez.Error.Failed"] } := by
  refine ⟨rfl, rfl, ?_, ?_⟩ <;> decide

/-- C4, amended. `RequestConfirmation` returns success exactly when the
device name resolves, the human answers "y" and the `SetTrusted` call that
follows reports no error; likewise `RequestAuthorization`.  So the failure
causes are a lookup failure, a reply other than "y", and a `SetTrusted`
error. -/
theorem accept_succeeds_iff (a : Agent) (env : Env) (path : String) (passkey : Nat)
    (s : State) :
    ((a.RequestConfirmation env path passkey s).1 = none ↔
      ∃ dev, env.GetDeviceFromPath s.trace path = .ok dev
        ∧ env.NewConfirmModal (s.trace ++ [Event.getDeviceFromPath path]) "passkey-confirm"
            "Passkey Confirmation"
            ("Confirm passkey for [::bu]" ++ dev.Name ++ "[-:-:-] is \n\n[::b]"
              ++ Nat.repr passkey ++ "[-:-:-]") = "y"
        ∧ env.SetTrusted (s.trace ++ [Event.getDeviceFromPath path] ++
            [Event.newConfirmModal "passkey-confirm" "Passkey Confirmation"
              ("Confirm passkey for [::bu]" ++ dev.Name ++ "[-:-:-] is \n\n[::b]"
                ++ Nat.repr passkey ++ "[-:-:-]") "y"]) path true = none)
    ∧ ((a.RequestAuthorization env path s).1 = none ↔
      ∃ dev, env.GetDeviceFromPath s.trace path = .ok dev
        ∧ env.NewConfirmModal (s.trace ++ [Event.getDeviceFromPath path]) "pairing-confirm"
            "Pairing Confirmation"
            ("Confirm pairing with [::bu]" ++ dev.Name ++ "[-:-:-]") = "y"
        ∧ env.SetTrusted (s.trace ++ [Event.getDeviceFromPath path] ++
            [Event.newConfirmModal "pairing-confirm" "Pairing Confirmation"
              ("Confirm pairing with [::bu]" ++ dev.Name ++ "[-:-:-]") "y"]) path true
          = none) := by
  constructor
  · unfold Agent.RequestConfirmation
    cases hdev : env.GetDeviceFromPath s.trace path with
    | error err => simp
    | ok dev =>
      simp only [State.log_trace, Except.ok.injEq, exists_eq_left']
      by_cases hy : env.NewConfirmModal (s.trace ++ [Event.getDeviceFromPath path])
          "passkey-confirm" "Passkey Confirmation"
          ("Confirm passkey for [::bu]" ++ dev.Name ++ "[-:-:-] is \n\n[::b]"
            ++ Nat.repr passkey ++ "[-:-:-]") = "y"
      · simp only [hy, ne_eq, not_true_eq_false, if_false, true_and]
        cases env.SetTrusted (s.trace ++ [Event.getDeviceFromPath path] ++
            [Event.newConfirmModal "passkey-confirm" "Passkey Confirmation"
              ("Confirm passkey for [::bu]" ++ dev.Name ++ "[-:-:-] is \n\n[::b]"
                ++ Nat.repr passkey ++ "[-:-:-]") "y"]) path true <;> simp
      · simp [hy]
  · unfold Agent.RequestAuthorization
    cases hdev : env.GetDeviceFromPath s.trace path with
    | error err => simp
    | ok dev =>
      simp only [State.log_trace, Except.ok.injEq, exists_eq_left']
      by_cases hy : env.NewConfirmModal (s.trace ++ [Event.getDeviceFromPath path])
          "pairing-confirm" "Pairing Confirmation"
          ("Confirm pairing with [::bu]" ++ dev.Name ++ "[-:-:-]") = "y"
      · simp only [hy, ne_eq, not_true_eq_false, if_false, true_and]
        cases env.SetTrusted (s.trace ++ [Event.getDeviceFromPath path] ++
            [Event.newConfirmModal "pairing-confirm" "Pairing Confirmation"
              ("Confirm pairing with [::bu]" ++ dev.Name ++ "[-:-:-]") "y"]) path true <;> simp
      · simp [hy]

/-- The scenario of C4: handle `/dev/A`, passkey 123456, reply "y", and a
`SetTrusted` that reports no error: both calls return success. -/
theorem accept_succeeds_iff_witness :
    (agent7.RequestConfirmation (scriptedEnv lookupA "y" none [] acceptAll)
        "/dev/A" 123456 State.init).1 = none
    ∧ (agent7.RequestAuthorization (scriptedEnv lookupA "y" none [] acceptAll)
        "/dev/A" State.init).1 = none :=
  ⟨(accept_succeeds_iff agent7 (scriptedEnv lookupA "y" none [] acceptAll) "/dev/A" 123456
      State.init).1.mpr ⟨{ Name := "Headset" }, rfl, rfl, rfl⟩,
    (accept_succeeds_iff agent7 (scriptedEnv lookupA "y" none [] acceptAll) "/dev/A" 123456
      State.init).2.mpr ⟨{ Name := "Headset" }, rfl, rfl, rfl⟩⟩

/-! ## Lookup failures -/

/-- C5. A lookup failure aborts the call: for `DisplayPinCode`,
`DisplayPasskey`, `RequestConfirmation` and `RequestAuthorization`, when
`GetDeviceFromPath` cannot resolve the handle, the call returns the Failed
reply carrying the lookup error, the only collaborator call made is the
lookup itself (no message, no confirmation prompt, no `SetTrusted`), and
`alwaysAuthorize` and the agent are unchanged. -/
theorem lookup_failure_aborts (a : Agent) (env : Env) (path pincode : String)
    (passkey entered : Nat) (s : State) (err : GoError)
    (h : env.GetDeviceFromPath s.trace path = .error err) :
    a.DisplayPinCode env path pincode s
      = (some { Name := "org.freedesktop.DBus.Error.Failed", Body := [err] },
        { s with trace := s.trace ++ [Event.getDeviceFromPath path] })
    ∧ a.DisplayPasskey env path passkey entered s
      = (some { Name := "org.freedesktop.DBus.Error.Failed", Body := [err] },
        { s with trace := s.trace ++ [Event.getDeviceFromPath path] })
    ∧ a.RequestConfirmation env path passkey s
      = (some { Name := "org.freedesktop.DBus.Error.Failed", Body := [err] },
        { s with trace := s.trace ++ [Event.getDeviceFromPath path] })
    ∧ a.RequestAuthorization env path s
      = (some { Name := "org.freedesktop.DBus.Error.Failed", Body := [err] },
        { s with trace := s.trace ++ [Event.getDeviceFromPath path] })
    ∧ promptCalls (s.trace ++ [Event.getDeviceFromPath path]) = promptCalls s.trace
    ∧ setTrustedCalls (s.trace ++ [Event.getDeviceFromPath path]) = setTrustedCalls s.trace := by
  refine ⟨?_, ?_, ?_, ?_, ?_, ?_⟩
  · unfold Agent.DisplayPinCode
    simp only [h]
    rfl
  · unfold Agent.DisplayPasskey
    simp only [h]
    rfl
  · unfold Agent.RequestConfirmation
    simp only [h]
    rfl
  · unfold Agent.RequestAuthorization
    simp only [h]
    rfl
  · rw [promptCalls_append]
    simp [promptCalls]
  · rw [setTrustedCalls_append]
    simp [setTrustedCalls]

/-- C5 on a handle the directory does not know: `RequestConfirmation` for
`/dev/B` returns the lookup error and records the lookup only. -/
theorem lookup_failure_aborts_witness :
    (scriptedEnv lookupA "y" none [] acceptAll).GetDeviceFromPath State.init.trace "/dev/B"
      = .error "device not found"
    ∧ agent7.RequestConfirmation (scriptedEnv lookupA "y" none [] acceptAll) "/dev/B" 123456
        State.init
      = (some { Name := "org.freedesktop.DBus.Error.Failed", Body := ["device not found"] },
        { State.init with trace := State.init.trace ++ [Event.getDeviceFromPath "/dev/B"] }) :=
  ⟨rfl, (lookup_failure_aborts agent7 (scriptedEnv lookupA "y" none [] acceptAll) "/dev/B"
    "0000" 123456 0 State.init "device not found" rfl).2.2.1⟩

/-! ## Fixed secrets and no-op responders -/

/-- C6. For every device handle, `RequestPinCode` returns the agent's
pincode and `RequestPasskey` the agent's passkey, with no error and with the
state (flag, agent and trace of collaborator calls) unchanged; and an agent
built by `NewAgent` has the pincode "0000" and the passkey 1024. -/
theorem fixed_secrets (a : Agent) (env : Env) (path : String) (s : State) :
    a.RequestPinCode path s = ((a.pinCode, none), s)
    ∧ a.RequestPasskey path s = ((a.passKey, none), s)
    ∧ (∀ ag : Agent, (NewAgent env s).1.1 = some ag →
        ag.pinCode = "0000" ∧ ag.passKey = 1024
        ∧ ag.RequestPinCode path s = (("0000", none), s)
        ∧ ag.RequestPasskey path s = ((1024, none), s)) := by
  refine ⟨rfl, rfl, ?_⟩
  intro ag hag
  unfold NewAgent at hag
  cases hbus : env.SystemBus s.trace with
  | error err => simp [hbus] at hag
  | ok conn =>
    simp only [hbus, Option.some.injEq] at hag
    subst hag
    exact ⟨rfl, rfl, rfl, rfl⟩

/-- C6 on the agent that `NewAgent` builds when the bus answers with
connection 7. -/
theorem fixed_secrets_witness :
    (NewAgent (scriptedEnv lookupA "y" none [] acceptAll) State.init).1.1 = some agent7
    ∧ agent7.RequestPinCode "/dev/A" State.init = (("0000", none), State.init)
    ∧ agent7.RequestPasskey "/dev/A" State.init = ((1024, none), State.init) :=
  ⟨rfl,
    ((fixed_secrets agent7 (scriptedEnv lookupA "y" none [] acceptAll) "/dev/A"
      State.init).2.2 agent7 rfl).2.2.1,
    ((fixed_secrets agent7 (scriptedEnv lookupA "y" none [] acceptAll) "/dev/A"
      State.init).2.2 agent7 rfl).2.2.2⟩

/-- C8. `Cancel` and `Release` are no-op responders: in every state and for
every agent each returns success and leaves the whole state unchanged: the
flag, the agent, and the trace of collaborator calls, so no prompt, lookup,
`SetTrusted` or bus call is made. -/
theorem cancel_release_noop (a : Agent) (s : State) :
    a.Cancel s = (none, s) ∧ a.Release s = (none, s)
    ∧ (a.Cancel s).2.alwaysAuthorize = s.alwaysAuthorize
    ∧ (a.Release s).2.alwaysAuthorize = s.alwaysAuthorize
    ∧ (a.Cancel s).2.trace = s.trace ∧ (a.Release s).2.trace = s.trace
    ∧ (a.Cancel s).2.agent = s.agent ∧ (a.Release s).2.agent = s.agent :=
  ⟨rfl, rfl, rfl, rfl, rfl, rfl, rfl, rfl⟩

/-! ## Passkey display -/

/-- C7. `DisplayPasskey` for a resolvable device, any passkey and any
entered count returns success and hands exactly one message to the display
modal.  With count 0 the message is the device-name and passkey text with
nothing appended; with a count above 0 it is that text followed by the
progress clause "You have entered <count>"; and the message ends with the
progress clause of the given count if and only if the count is above 0. -/
theorem display_passkey_progress (a : Agent) (env : Env) (path : String)
    (passkey entered : Nat) (s : State) (dev : Device)
    (hdev : env.GetDeviceFromPath s.trace path = .ok dev) :
    (a.DisplayPasskey env path passkey entered s).1 = none
    ∧ (entered = 0 →
        (a.DisplayPasskey env path passkey entered s).2.trace
          = s.trace ++ [Event.getDeviceFromPath path,
              Event.newDisplayModal "passkey-display" "Passkey Display"
                ("The passkey for [::bu]" ++ dev.Name ++ "[-:-:-] is:\n\n[::b]"
                  ++ Nat.repr passkey ++ "[-:-:-]")])
    ∧ (0 < entered →
        (a.DisplayPasskey env path passkey entered s).2.trace
          = s.trace ++ [Event.getDeviceFromPath path,
              Event.newDisplayModal "passkey-display" "Passkey Display"
                ("The passkey for [::bu]" ++ dev.Name ++ "[-:-:-] is:\n\n[::b]"
                  ++ Nat.repr passkey ++ "[-:-:-]"
                  ++ "\n\nYou have entered " ++ Nat.repr entered)])
    ∧ (∃ msg : String,
        (a.DisplayPasskey env path passkey entered s).2.trace
          = s.trace ++ [Event.getDeviceFromPath path,
              Event.newDisplayModal "passkey-display" "Passkey Display" msg]
        ∧ ((∃ pre : String, msg = pre ++ "\n\nYou have entered " ++ Nat.repr entered)
          ↔ 0 < entered)) := by
  have hzero : entered = 0 →
      (a.DisplayPasskey env path passkey entered s).2.trace
        = s.trace ++ [Event.getDeviceFromPath path,
            Event.newDisplayModal "passkey-display" "Passkey Display"
              ("The passkey for [::bu]" ++ dev.Name ++ "[-:-:-] is:\n\n[::b]"
                ++ Nat.repr passkey ++ "[-:-:-]")] := by
    intro h0
    unfold Agent.DisplayPasskey
    simp [hdev, h0, State.log]
  have hpos : 0 < entered →
      (a.DisplayPasskey env path passkey entered s).2.trace
        = s.trace ++ [Event.getDeviceFromPath path,
            Event.newDisplayModal "passkey-display" "Passkey Display"
              ("The passkey for [::bu]" ++ dev.Name ++ "[-:-:-] is:\n\n[::b]"
                ++ Nat.repr passkey ++ "[-:-:-]"
                ++ "\n\nYou have entered " ++ Nat.repr entered)] := by
    intro hp
    unfold Agent.DisplayPasskey
    simp only [hdev, gt_iff_lt, hp, if_true, State.log, List.append_assoc,
      List.singleton_append, ← String.append_assoc]
  refine ⟨?_, hzero, hpos, ?_⟩
  · unfold Agent.DisplayPasskey
    simp [hdev]
  · by_cases hp : 0 < entered
    · exact ⟨_, hpos hp, ⟨fun _ => hp, fun _ => ⟨_, rfl⟩⟩⟩
    · have h0 : entered = 0 := by omega
      refine ⟨_, hzero h0, ⟨?_, fun h => absurd h hp⟩⟩
      rintro ⟨pre, hpre⟩
      subst h0
      exact absurd hpre (no_progress_clause_after_bracket _ pre)

/-- C7 on `/dev/A` with passkey 123456: with no digit entered the message
has no progress clause, with three digits entered it ends with the clause
for 3. -/
theorem display_passkey_progress_witness :
    (scriptedEnv lookupA "y" none [] acceptAll).GetDeviceFromPath State.init.trace "/dev/A"
      = .ok { Name := "Headset" }
    ∧ (agent7.DisplayPasskey (scriptedEnv lookupA "y" none [] acceptAll) "/dev/A" 123456 0
        State.init).2.trace
      = [Event.getDeviceFromPath "/dev/A",
          Event.newDisplayModal "passkey-display" "Passkey Display"
            "The passkey for [::bu]Headset[-:-:-] is:\n\n[::b]123456[-:-:-]"]
    ∧ (agent7.DisplayPasskey (scriptedEnv lookupA "y" none [] acceptAll) "/dev/A" 123456 3
        State.init).2.trace
      = [Event.getDeviceFromPath "/dev/A",
          Event.newDisplayModal "passkey-display" "Passkey Display"
            "The passkey for [::bu]Headset[-:-:-] is:\n\n[::b]123456[-:-:-]\n\nYou have entered 3"] :=
  ⟨rfl,
    (display_passkey_progress agent7 (scriptedEnv lookupA "y" none [] acceptAll) "/dev/A"
      123456 0 State.init { Name := "Headset" } rfl).2.1 rfl,
    (display_passkey_progress agent7 (scriptedEnv lookupA "y" none [] acceptAll) "/dev/A"
      123456 3 State.init { Name := "Headset" } rfl).2.2.1 (by decide)⟩

/-! ## Registration -/

/-- C9. With an agent in place, `RegisterAgent` first calls
`org.bluez.AgentManager1.RegisterAgent` on `org.bluez`, `/org/bluez` with the
path "/org/bluez/agent/bluetuith" and the capability "KeyboardDisplay".  If
that call is rejected it returns its error and makes no further call; if it
is accepted it calls `RequestDefaultAgent` with the same path and returns
that call's result.  So it returns an error exactly when one of the two
calls is rejected.  `SetupAgent`, from any state, returns the error of the
first failing step among the bus connection, the export of the agent
methods and the export of the introspection data, making no later
collaborator call, and otherwise continues with `RegisterAgent` on the agent
it built, whose result it returns. -/
theorem registration_protocol (env : Env) (conn : Conn) (s : State) (a : Agent)
    (h : s.agent = some a) :
    let e1 := Event.call a.conn "org.bluez" "/org/bluez" "org.bluez.AgentManager1.RegisterAgent"
      0 [Arg.objectPath "/org/bluez/agent/bluetuith", Arg.str "KeyboardDisplay"]
    let c1 := env.Call s.trace a.conn "org.bluez" "/org/bluez"
      "org.bluez.AgentManager1.RegisterAgent"
      0 [Arg.objectPath "/org/bluez/agent/bluetuith", Arg.str "KeyboardDisplay"]
    let e2 := Event.call a.conn "org.bluez" "/org/bluez"
      "org.bluez.AgentManager1.RequestDefaultAgent"
      0 [Arg.objectPath "/org/bluez/agent/bluetuith"]
    let c2 := env.Call (s.trace ++ [e1]) a.conn "org.bluez" "/org/bluez"
      "org.bluez.AgentManager1.RequestDefaultAgent"
      0 [Arg.objectPath "/org/bluez/agent/bluetuith"]
    (∀ err, c1.Store = some err →
        RegisterAgent env s = some (some err, { s with trace := s.trace ++ [e1] }))
    ∧ (c1.Store = none →
        RegisterAgent env s = some (c2.Store, { s with trace := s.trace ++ [e1, e2] }))
    ∧ (∃ r t, RegisterAgent env s = some (r, t)
        ∧ (r ≠ none ↔ (c1.Store ≠ none ∨ (c1.Store = none ∧ c2.Store ≠ none))))
    ∧ (∀ (t : State) (err : GoError), env.SystemBus t.trace = .error err →
        SetupAgent env conn t
          = some (some err, {
              agent := none
              alwaysAuthorize := t.alwaysAuthorize
              trace := t.trace ++ [Event.systemBus] }))
    ∧ (∀ (t : State) (c : Conn) (err : GoError), env.SystemBus t.trace = .ok c →
        env.Export (t.trace ++ [Event.systemBus]) c Exported.agentMethods
          "/org/bluez/agent/bluetuith" "org.bluez.Agent1" = some err →
        SetupAgent env conn t
          = some (some err,
            {
              agent := some { conn := c, pinCode := "0000", passKey := 1024 }
              alwaysAuthorize := t.alwaysAuthorize
              trace := t.trace ++ [Event.systemBus,
                Event.export c Exported.agentMethods "/org/bluez/agent/bluetuith"
                  "org.bluez.Agent1"] }))
    ∧ (∀ (t : State) (c : Conn) (err : GoError), env.SystemBus t.trace = .ok c →
        env.Export (t.trace ++ [Event.systemBus]) c Exported.agentMethods
          "/org/bluez/agent/bluetuith" "org.bluez.Agent1" = none →
        env.Export (t.trace ++ [Event.systemBus,
            Event.export c Exported.agentMethods "/org/bluez/agent/bluetuith"
              "org.bluez.Agent1"]) c Exported.introspectable
          "/org/bluez/agent/bluetuith" "org.freedesktop.DBus.Introspectable" = some err →
        SetupAgent env conn t
          = some (some err,
            {
              agent := some { conn := c, pinCode := "0000", passKey := 1024 }
              alwaysAuthorize := t.alwaysAuthorize
              trace := t.trace ++ [Event.systemBus,
                Event.export c Exported.agentMethods "/org/bluez/agent/bluetuith"
                  "org.bluez.Agent1",
                Event.export c Exported.introspectable "/org/bluez/agent/bluetuith"
                  "org.freedesktop.DBus.Introspectable"] }))
    ∧ (∀ (t : State) (c : Conn), env.SystemBus t.trace = .ok c →
        env.Export (t.trace ++ [Event.systemBus]) c Exported.agentMethods
          "/org/bluez/agent/bluetuith" "org.bluez.Agent1" = none →
        env.Export (t.trace ++ [Event.systemBus,
            Event.export c Exported.agentMethods "/org/bluez/agent/bluetuith"
              "org.bluez.Agent1"]) c Exported.introspectable
          "/org/bluez/agent/bluetuith" "org.freedesktop.DBus.Introspectable" = none →
        SetupAgent env conn t
          = RegisterAgent env
            {
              agent := some { conn := c, pinCode := "0000", passKey := 1024 }
              alwaysAuthorize := t.alwaysAuthorize
              trace := t.trace ++ [Event.systemBus,
                Event.export c Exported.agentMethods "/org/bluez/agent/bluetuith"
                  "org.bluez.Agent1",
                Event.export c Exported.introspectable "/org/bluez/agent/bluetuith"
                  "org.freedesktop.DBus.Introspectable"] }) := by
  intro e1 c1 e2 c2
  have hrej : ∀ err, c1.Store = some err →
      RegisterAgent env s = some (some err, { s with trace := s.trace ++ [e1] }) :=
    fun err herr => RegisterAgent_rejected env s a err h herr
  have hacc : c1.Store = none →
      RegisterAgent env s = some (c2.Store, { s with trace := s.trace ++ [e1, e2] }) := by
    intro hnone
    refine (RegisterAgent_accepted env s a h hnone).trans ?_
    simp only [State.log, List.append_assoc, List.singleton_append]
    rfl
  refine ⟨hrej, hacc, ?_, ?_, ?_, ?_, ?_⟩
  · cases hc1 : c1.Store with
    | some err => exact ⟨_, _, hrej err hc1, by simp⟩
    | none => exact ⟨_, _, hacc hc1, by simp⟩
  · intro t err hbus
    exact SetupAgent_bus_error env conn t err hbus
  · intro t c err hbus hexp
    refine (SetupAgent_export_error env conn t c err hbus hexp).trans ?_
    simp only [State.log, List.append_assoc, List.singleton_append]
    rfl
  · intro t c err hbus hexp hint
    have hint2 : env.Export ((t.log Event.systemBus).log
        (Event.export c Exported.agentMethods AgentPath AgentIface)).trace c
        Exported.introspectable AgentPath dbusIntrospectable = some err := by
      simp only [State.log, List.append_assoc, List.singleton_append]
      exact hint
    refine (SetupAgent_introspect_error env conn t c err hbus hexp hint2).trans ?_
    simp only [State.log, List.append_assoc, List.singleton_append]
    rfl
  · intro t c hbus hexp hint
    have hint2 : env.Export ((t.log Event.systemBus).log
        (Event.export c Exported.agentMethods AgentPath AgentIface)).trace c
        Exported.introspectable AgentPath dbusIntrospectable = none := by
      simp only [State.log, List.append_assoc, List.singleton_append]
      exact hint
    refine (SetupAgent_exported env conn t c hbus hexp hint2).trans ?_
    simp only [State.log, List.append_assoc, List.singleton_append]
    rfl

/-- C9 against an agent manager that rejects `RegisterAgent`: the error
comes back and the trace holds the `RegisterAgent` call only, so
`RequestDefaultAgent` was not issued. -/
theorem registration_protocol_witness :
    readyState.agent = some agent7
    ∧ RegisterAgent (scriptedEnv lookupA "y" none [] rejectRegister) readyState
      = some (some "org.bluez.Error.AlreadyExists",
        { readyState with
          trace := readyState.trace ++
            [Event.call agent7.conn "org.bluez" "/org/bluez"
              "org.bluez.AgentManager1.RegisterAgent" 0
              [Arg.objectPath "/org/bluez/agent/bluetuith", Arg.str "KeyboardDisplay"]] }) :=
  ⟨rfl, (registration_protocol (scriptedEnv lookupA "y" none [] rejectRegister) 7 readyState
    agent7 rfl).1 "org.bluez.Error.AlreadyExists" (by decide)⟩

end Bluetuith
